import Mathlib

/-!
Shallow embedding of `src/convert_to_webp_and_thumbs.py` (image-converter-webp).

The script converts a directory of images to WebP plus a thumbnail, runs the
per-file conversions under a process pool, and folds the per-file results into
run-level statistics.  The embedding models:

  * the PIL-level facts the script inspects (mode, animation flag, frame
    durations, metadata presence) as a `DecodedImage` record;
  * the filesystem and codec environment of one file (`Env`): sizes, mtimes,
    whether each decode/encode step raises;
  * `process_single_file` as a pure function from configuration and
    environment to `Except String (message × stats × trace)`, where the trace
    records the encode calls issued to PIL (`SaveCall`);
  * `process_file_task` (the worker wrapper) and the aggregation loop of
    `main` (`foldOutcome`, `driveStep`, `drive`, `finalReport`).

Sizes and times are `Nat`; the floating-point percentage computations are
modelled over `ℚ` (the script only ever divides and multiplies by 100).
-/

/-- PIL image modes distinguished by the script's alpha test
`img.mode in ("RGBA", "LA") or (img.mode == "P" and "transparency" in img.info)`. -/
inductive Mode where
  | RGBA
  | LA
  | P
  | RGB
  | L
  | CMYK
deriving Repr, DecidableEq

/-- The script's per-image alpha test: direct alpha (`RGBA`), luminance+alpha
(`LA`), or palette (`P`) with a `"transparency"` entry in `img.info`. -/
def modeHasAlpha (m : Mode) (transparency : Bool) : Bool :=
  match m with
  | Mode.RGBA => true
  | Mode.LA => true
  | Mode.P => transparency
  | _ => false

/-- Facts about the decoded source image (after `ImageOps.exif_transpose`)
that `process_single_file` inspects.  `exifBytes` / `iccProfile` are abstract
tokens standing for the raw metadata blobs in `img.info`; `frameDurations`
holds, per frame index, the optional `"duration"` entry of `img.info` after
`img.seek(i)`; `loopInfo` is the optional `"loop"` entry. -/
structure DecodedImage where
  format : String
  isAnimated : Bool
  nFrames : Nat
  mode : Mode
  transparency : Bool
  exifBytes : Option Nat
  iccProfile : Option Nat
  frameDurations : List (Option Nat)
  loopInfo : Option Nat
deriving Repr, DecidableEq

/-- The thumbnail pipeline re-opens the source, seeks to the first frame and
downscales; the alpha test is then re-run on the downscaled image.  Only the
fields that test inspects are modelled. -/
structure ThumbImage where
  mode : Mode
  transparency : Bool
deriving Repr, DecidableEq

/-- Existence, size and mtime of a file on disk (`Path.stat()`). -/
structure FileMeta where
  size : Nat
  mtime : Nat
deriving Repr, DecidableEq

/-- The configuration fields `process_single_file` reads (after
`load_config` defaulting; `config.get(key, default)` always succeeds here). -/
structure Config where
  quality : Nat
  method : Nat
  thumb_size : Nat × Nat
  preserve_exif : Bool
  preserve_icc : Bool
  preserve_alpha : Bool
  skip_existing : Bool
deriving Repr, DecidableEq

/-- The per-file environment: what the filesystem and PIL would answer during
one run of `process_single_file`.
`mainOut` / `thumbOut` are the pre-existing output files (if any);
`decoded = none` models `UnidentifiedImageError` on `Image.open`;
`mainEncodeErr` models an exception from the main `save` call;
`thumbErr` models any exception inside the thumbnail `try` block (second
decode, resize, or thumbnail save), raised after the thumbnail up-to-date
check has failed; `writtenMainSize` / `writtenThumbSize` are the on-disk
sizes of the outputs after a successful save. -/
structure Env where
  srcName : String
  srcStem : String
  srcPath : String
  originalSize : Nat
  srcMtime : Nat
  mainOut : Option FileMeta
  thumbOut : Option FileMeta
  decoded : Option DecodedImage
  mainEncodeErr : Option String
  writtenMainSize : Nat
  thumbDecoded : ThumbImage
  thumbErr : Option String
  writtenThumbSize : Nat
deriving Repr, DecidableEq

/-- One encode call issued to PIL's `save`.  `quality = none` means the
`quality` keyword was not passed; `exif` / `icc` record the metadata blobs
attached to the call; for animated saves `frames`, `durations` and `loop`
record the frame list length, per-frame `duration` list and `loop` keyword. -/
structure SaveCall where
  lossless : Bool
  quality : Option Nat
  method : Nat
  exif : Option Nat
  icc : Option Nat
  animated : Bool
  frames : Nat
  durations : List Nat
  loop : Nat
deriving Repr, DecidableEq

/-- Instrumentation of one `process_single_file` run: the main-image and
thumbnail encode calls actually issued (none when the step was skipped or
failed before encoding). -/
structure Trace where
  mainSave : Option SaveCall
  thumbSave : Option SaveCall
deriving Repr, DecidableEq

/-- The `stats` dictionary returned by `process_single_file`.
`compression_pct` models the `compression_ratio` entry. -/
structure Stats where
  original_size : Nat
  webp_size : Nat
  thumb_size : Nat
  total_size : Nat
  compression_pct : ℚ
deriving Repr, DecidableEq

/-- `(total / original) * 100 if original > 0 else 0`, over `ℚ`. -/
def ratioOf (total orig : Nat) : ℚ :=
  if 0 < orig then ((total : ℚ) / (orig : ℚ)) * 100 else 0

/-- `out_webp.exists() and out_webp.stat().st_mtime >= src.stat().st_mtime`. -/
def mainUpToDate (env : Env) : Bool :=
  match env.mainOut with
  | some m => env.srcMtime ≤ m.mtime
  | none => false

/-- `out_thumb.exists() and out_thumb.stat().st_mtime >= src.stat().st_mtime`. -/
def thumbUpToDate (env : Env) : Bool :=
  match env.thumbOut with
  | some m => env.srcMtime ≤ m.mtime
  | none => false

/-- `is_animated and src_format in ("GIF", "WEBP")`. -/
def animatedPath (img : DecodedImage) : Bool :=
  img.isAnimated && (img.format == "GIF" || img.format == "WEBP")

/-- The `durations` list collected by the animated branch:
`durations.append(img.info.get("duration", 100))` for each of the
`n_frames` frames. -/
def collectedDurations (img : DecodedImage) : List Nat :=
  (List.range img.nFrames).map (fun i => (img.frameDurations.getD i none).getD 100)

/-- The animated `save` call: `save_all=True`, the full frame list, per-frame
durations, `loop=img.info.get("loop", 0)`, configured quality and method; no
`lossless`, `exif` or `icc_profile` keyword is passed on this path. -/
def animatedSaveCall (cfg : Config) (img : DecodedImage) : SaveCall :=
  { lossless := false
    quality := some cfg.quality
    method := cfg.method
    exif := none
    icc := none
    animated := true
    frames := img.nFrames
    durations := collectedDurations img
    loop := img.loopInfo.getD 0 }

/-- The static-image `save` call.  Metadata is attached only when present on
the source and the corresponding preservation flag is set (the script
computes `exif_bytes` / `icc_profile` gated on the flags, then adds each to
`save_kwargs` only when truthy).  Alpha present and `preserve_alpha` set
selects `lossless=True` with no `quality` keyword; otherwise `quality` is the
configured quality and no `lossless` keyword is passed. -/
def staticSaveCall (cfg : Config) (img : DecodedImage) : SaveCall :=
  let exifB := if cfg.preserve_exif then img.exifBytes else none
  let iccP := if cfg.preserve_icc then img.iccProfile else none
  if modeHasAlpha img.mode img.transparency && cfg.preserve_alpha then
    { lossless := true, quality := none, method := cfg.method
      exif := exifB, icc := iccP
      animated := false, frames := 1, durations := [], loop := 0 }
  else
    { lossless := false, quality := some cfg.quality, method := cfg.method
      exif := exifB, icc := iccP
      animated := false, frames := 1, durations := [], loop := 0 }

/-- The main-image conversion block (inside `with Image.open(src_path)`).
On the animated path `frames[0].save(...)` raises `IndexError` when the frame
list is empty; otherwise an encode error (modelled by `env.mainEncodeErr`)
propagates out of `process_single_file` and becomes a task failure. -/
def convertMain (cfg : Config) (env : Env) (img : DecodedImage) :
    Except String SaveCall :=
  if animatedPath img then
    if img.nFrames = 0 then
      Except.error "IndexError: list index out of range"
    else
      match env.mainEncodeErr with
      | some e => Except.error e
      | none => Except.ok (animatedSaveCall cfg img)
  else
    match env.mainEncodeErr with
    | some e => Except.error e
    | none => Except.ok (staticSaveCall cfg img)

/-- The thumbnail `save` call: the alpha test re-run on the downscaled image
selects lossless (no `quality` keyword) or lossy at the configured quality;
no `exif` or `icc_profile` keyword is ever passed for thumbnails. -/
def thumbSaveCall (cfg : Config) (t : ThumbImage) : SaveCall :=
  if modeHasAlpha t.mode t.transparency && cfg.preserve_alpha then
    { lossless := true, quality := none, method := cfg.method
      exif := none, icc := none
      animated := false, frames := 1, durations := [], loop := 0 }
  else
    { lossless := false, quality := some cfg.quality, method := cfg.method
      exif := none, icc := none
      animated := false, frames := 1, durations := [], loop := 0 }

/-- `process_single_file(src_path, config)`: skip check on the main output,
main conversion, thumbnail skip check, thumbnail generation; returns the
message and stats (plus the instrumentation trace), or the error message the
caller turns into a failure outcome. -/
def process_single_file (cfg : Config) (env : Env) :
    Except String (String × Stats × Trace) :=
  let original := env.originalSize
  if cfg.skip_existing && mainUpToDate env then
    let webpSize := (env.mainOut.map FileMeta.size).getD 0
    let thumbSize := (env.thumbOut.map FileMeta.size).getD 0
    Except.ok ("Skip (webp exists and up-to-date): " ++ env.srcName,
      { original_size := original, webp_size := webpSize, thumb_size := thumbSize
        total_size := webpSize + thumbSize
        compression_pct := ratioOf (webpSize + thumbSize) original },
      { mainSave := none, thumbSave := none })
  else
    match env.decoded with
    | none =>
        Except.error ("Skipped (not an image or corrupted): " ++ env.srcPath)
    | some img =>
        match convertMain cfg env img with
        | Except.error e => Except.error e
        | Except.ok mcall =>
            let webpSize := env.writtenMainSize
            if cfg.skip_existing && thumbUpToDate env then
              let thumbSize := (env.thumbOut.map FileMeta.size).getD 0
              Except.ok
                ("Converted (webp ready). Thumbnail skipped (up-to-date): "
                    ++ env.srcName,
                  { original_size := original, webp_size := webpSize
                    thumb_size := thumbSize
                    total_size := webpSize + thumbSize
                    compression_pct := ratioOf (webpSize + thumbSize) original },
                  { mainSave := some mcall, thumbSave := none })
            else
              match env.thumbErr with
              | some e =>
                  Except.ok
                    ("Converted: " ++ env.srcName ++ " -> " ++ env.srcStem
                        ++ ".webp (thumbnail failed: " ++ e ++ ")",
                      { original_size := original, webp_size := webpSize
                        thumb_size := 0
                        total_size := webpSize
                        compression_pct := ratioOf webpSize original },
                      { mainSave := some mcall, thumbSave := none })
              | none =>
                  let tcall := thumbSaveCall cfg env.thumbDecoded
                  let thumbSize := env.writtenThumbSize
                  Except.ok
                    ("Converted: " ++ env.srcName ++ " -> " ++ env.srcStem
                        ++ ".webp | Thumb: " ++ env.srcStem ++ "_thumb.webp",
                      { original_size := original, webp_size := webpSize
                        thumb_size := thumbSize
                        total_size := webpSize + thumbSize
                        compression_pct := ratioOf (webpSize + thumbSize) original },
                      { mainSave := some mcall, thumbSave := some tcall })

/-- The tuple `(filename, ok, message, stats)` returned by
`process_file_task`; an empty stats dictionary is modelled as `none`. -/
structure Outcome where
  filename : String
  ok : Bool
  message : String
  stats : Option Stats
deriving Repr, DecidableEq

/-- `process_file_task`: runs `process_single_file` and converts any raised
exception into a `(name, False, str(e), {})` outcome. -/
def process_file_task (cfg : Config) (env : Env) : Outcome :=
  match process_single_file cfg env with
  | Except.ok (msg, stats, _) =>
      { filename := env.srcName, ok := true, message := msg, stats := some stats }
  | Except.error e =>
      { filename := env.srcName, ok := false, message := e, stats := none }

/-- The mutable run-level state of `main`'s result loop. -/
structure AggState where
  success_count : Nat
  failed : List (String × String)
  total_original_size : Nat
  total_webp_size : Nat
  total_thumb_size : Nat
deriving Repr, DecidableEq

/-- The initial aggregation state of `main`. -/
def aggInit : AggState :=
  { success_count := 0, failed := [], total_original_size := 0
    total_webp_size := 0, total_thumb_size := 0 }

/-- One iteration of `main`'s loop body on a normally returned outcome:
when `ok`, the size totals are updated only when `stats` is non-empty, and
the success counter is incremented; otherwise the file is appended to the
failure list. -/
def foldOutcome (st : AggState) (o : Outcome) : AggState :=
  if o.ok then
    match o.stats with
    | some s =>
        { st with
          total_original_size := st.total_original_size + s.original_size
          total_webp_size := st.total_webp_size + s.webp_size
          total_thumb_size := st.total_thumb_size + s.thumb_size
          success_count := st.success_count + 1 }
    | none => { st with success_count := st.success_count + 1 }
  else
    { st with failed := st.failed ++ [(o.filename, o.message)] }

/-- What one completed future delivers to `main`'s loop: either the worker's
returned outcome, or an exception from `fut.result()` (abnormal worker
termination), which `main` records as `(basename(src), str(e))`. -/
inductive TaskResult where
  | done : Outcome → TaskResult
  | crash : String → String → TaskResult
deriving Repr, DecidableEq

/-- One iteration of `main`'s loop on a completed future. -/
def driveStep (st : AggState) (r : TaskResult) : AggState :=
  match r with
  | TaskResult.done o => foldOutcome st o
  | TaskResult.crash name err => { st with failed := st.failed ++ [(name, err)] }

/-- `main`'s whole result loop: fold the completed-future stream. -/
def drive (st : AggState) (rs : List TaskResult) : AggState :=
  rs.foldl driveStep st

/-- The run-level summary computed by `main` after the pool drains. -/
structure RunReport where
  files_processed : Nat
  files_failed : Nat
  total_output_size : Nat
  overall_compression_pct : ℚ
  space_saved : Int
deriving Repr, DecidableEq

/-- `main`'s final statistics: total output size, overall compression ratio
(0 when no original bytes were counted) and space saved, which is negative
when the outputs are larger than the originals. -/
def finalReport (st : AggState) : RunReport :=
  let total_output := st.total_webp_size + st.total_thumb_size
  { files_processed := st.success_count
    files_failed := st.failed.length
    total_output_size := total_output
    overall_compression_pct :=
      if 0 < st.total_original_size then
        ((total_output : ℚ) / (st.total_original_size : ℚ)) * 100
      else 0
    space_saved := (st.total_original_size : Int) - (total_output : Int) }

/-! ### Concrete fixtures used by counterexamples and witnesses -/

/-- A configuration matching the `load_config` defaults. -/
def cfgDefault : Config :=
  { quality := 100, method := 6, thumb_size := (400, 400)
    preserve_exif := true, preserve_icc := true, preserve_alpha := true
    skip_existing := true }

/-- A static RGB image with no metadata. -/
def imgPlain : DecodedImage :=
  { format := "PNG", isAnimated := false, nFrames := 1, mode := Mode.RGB
    transparency := false, exifBytes := none, iccProfile := none
    frameDurations := [], loopInfo := none }

/-- A corrupt source: `Image.open` raises `UnidentifiedImageError`. -/
def envCorrupt : Env :=
  { srcName := "broken.gif", srcStem := "broken", srcPath := "imgs/broken.gif"
    originalSize := 500, srcMtime := 10
    mainOut := none, thumbOut := none
    decoded := none
    mainEncodeErr := none, writtenMainSize := 0
    thumbDecoded := { mode := Mode.RGB, transparency := false }
    thumbErr := none, writtenThumbSize := 0 }

/-- A source whose main output is current but whose thumbnail is missing. -/
def envMainCurrentThumbMissing : Env :=
  { srcName := "photo.png", srcStem := "photo", srcPath := "imgs/photo.png"
    originalSize := 2000, srcMtime := 5
    mainOut := some { size := 1234, mtime := 9 }
    thumbOut := none
    decoded := some imgPlain
    mainEncodeErr := none, writtenMainSize := 700
    thumbDecoded := { mode := Mode.RGB, transparency := false }
    thumbErr := none, writtenThumbSize := 80 }

/-- A fresh static file that completes the full pipeline with
original 1000, main output 300 and thumbnail 50 bytes. -/
def envFull : Env :=
  { srcName := "pic.png", srcStem := "pic", srcPath := "imgs/pic.png"
    originalSize := 1000, srcMtime := 10
    mainOut := none, thumbOut := none
    decoded := some imgPlain
    mainEncodeErr := none, writtenMainSize := 300
    thumbDecoded := { mode := Mode.RGB, transparency := false }
    thumbErr := none, writtenThumbSize := 50 }

/-- A sample successful outcome used in aggregation examples. -/
def sampleOutcome : Outcome :=
  { filename := "a.png", ok := true, message := "Converted: a.png"
    stats := some { original_size := 100, webp_size := 40, thumb_size := 10
                    total_size := 50, compression_pct := 50 } }

/-! ### Aggregation helper lemmas -/

/-- Projection of the aggregation state to the order-insensitive totals:
success count, failure count, and the three size totals. -/
def totalsOf (st : AggState) : Nat × Nat × Nat × Nat × Nat :=
  (st.success_count, st.failed.length, st.total_original_size,
   st.total_webp_size, st.total_thumb_size)

/-- The contribution of one completed future to the totals. -/
def contribOf (r : TaskResult) : Nat × Nat × Nat × Nat × Nat :=
  match r with
  | TaskResult.done o =>
      if o.ok then
        match o.stats with
        | some s => (1, 0, s.original_size, s.webp_size, s.thumb_size)
        | none => (1, 0, 0, 0, 0)
      else (0, 1, 0, 0, 0)
  | TaskResult.crash _ _ => (0, 1, 0, 0, 0)

theorem totalsOf_driveStep (st : AggState) (r : TaskResult) :
    totalsOf (driveStep st r) = totalsOf st + contribOf r := by
  rcases r with o | ⟨n, e⟩
  · by_cases h : o.ok
    · rcases hs : o.stats with _ | s <;>
        simp [driveStep, foldOutcome, totalsOf, contribOf, h, hs, Prod.ext_iff]
    · simp [driveStep, foldOutcome, totalsOf, contribOf, h, Prod.ext_iff]
  · simp [driveStep, totalsOf, contribOf, Prod.ext_iff]

theorem totalsOf_drive (st : AggState) (rs : List TaskResult) :
    totalsOf (drive st rs) = totalsOf st + (rs.map contribOf).sum := by
  induction rs generalizing st with
  | nil => simp [drive]
  | cons r rs ih =>
      have h1 : drive st (r :: rs) = drive (driveStep st r) rs := rfl
      rw [h1, ih, totalsOf_driveStep, List.map_cons, List.sum_cons, add_assoc]

/-! ### C1 -/

/-- C1 as stated is false: a `Failure` outcome is returned with an empty
stats dictionary and `main` updates the size totals only inside the
`if ok:` branch, so a failed file's original size is never added to the
original-size total.  Here a corrupt 500-byte source yields a failure
outcome and the original-size total stays 0. -/
theorem failure_skips_original_total_cex :
    envCorrupt.originalSize = 500 ∧
    (process_file_task cfgDefault envCorrupt).ok = false ∧
    (foldOutcome aggInit (process_file_task cfgDefault envCorrupt)).total_original_size
      = 0 :=
  ⟨rfl, rfl, rfl⟩

/-- C1 amended: the aggregator adds an outcome's sizes (original included)
to the totals only when the outcome is a success with non-empty stats;
`Failure` outcomes carry empty stats and contribute zero to every total,
including the original-size total.  Output-size totals receive whatever the
stats report — zero for failed files, the on-disk sizes for skipped files. -/
theorem aggregate_adds_sizes_only_for_ok (st : AggState) (o : Outcome) :
    (foldOutcome st o).total_original_size
      = st.total_original_size
        + (if o.ok then (o.stats.map Stats.original_size).getD 0 else 0) ∧
    (foldOutcome st o).total_webp_size
      = st.total_webp_size
        + (if o.ok then (o.stats.map Stats.webp_size).getD 0 else 0) ∧
    (foldOutcome st o).total_thumb_size
      = st.total_thumb_size
        + (if o.ok then (o.stats.map Stats.thumb_size).getD 0 else 0) := by
  by_cases h : o.ok <;> rcases hs : o.stats with _ | s <;>
    simp [foldOutcome, h, hs]

/-! ### C7 -/

/-- C7: the run-level totals (success count, failure count, original, main
and thumbnail size totals) are invariant under any permutation of the
outcome arrival order; only the ordered failure list depends on it. -/
theorem aggregate_totals_perm_invariant (st : AggState)
    (l l' : List TaskResult) (hp : l.Perm l') :
    totalsOf (drive st l) = totalsOf (drive st l') := by
  rw [totalsOf_drive, totalsOf_drive, (hp.map contribOf).sum_eq]

/-- Witness for C7: swapping the arrival order of a success and a crash
leaves all totals unchanged. -/
theorem aggregate_totals_perm_invariant_witness :
    totalsOf (drive aggInit
        [TaskResult.done sampleOutcome, TaskResult.crash "x.png" "boom"])
      = totalsOf (drive aggInit
        [TaskResult.crash "x.png" "boom", TaskResult.done sampleOutcome]) :=
  aggregate_totals_perm_invariant aggInit _ _
    (List.Perm.swap (TaskResult.crash "x.png" "boom")
      (TaskResult.done sampleOutcome) [])

/-! ### C2 -/

/-- C2 as stated is false: when skip-existing is enabled and the main output
is current, `process_single_file` returns at the main-output skip check —
before the thumbnail check — so a missing (or stale) thumbnail is NOT
regenerated.  Here the main output (mtime 9) is newer than the source
(mtime 5), the thumbnail does not exist, and the run issues no save call at
all, reporting thumbnail size 0. -/
theorem main_current_no_thumb_regen_cex :
    cfgDefault.skip_existing = true ∧
    mainUpToDate envMainCurrentThumbMissing = true ∧
    envMainCurrentThumbMissing.thumbOut = none ∧
    (process_single_file cfgDefault envMainCurrentThumbMissing).map
        (fun r => r.2.2) = Except.ok { mainSave := none, thumbSave := none } ∧
    (process_single_file cfgDefault envMainCurrentThumbMissing).map
        (fun r => r.2.1.thumb_size) = Except.ok 0 :=
  ⟨rfl, rfl, rfl, rfl, rfl⟩

/-- C2 amended: the thumbnail up-to-date check is evaluated independently
only after the main image has actually been (re)converted; when skip-existing
is enabled and the main output is current, the whole file is skipped — the
outcome reports the on-disk sizes and no main or thumbnail encode is issued,
even when the thumbnail is stale or missing (an all-or-nothing skip on the
main-current side; partial work only occurs as main-converted plus
thumbnail-skipped). -/
theorem main_current_is_full_skip (cfg : Config) (env : Env) (m : FileMeta)
    (hsk : cfg.skip_existing = true) (hm : env.mainOut = some m)
    (hup : env.srcMtime ≤ m.mtime) :
    process_single_file cfg env =
      Except.ok ("Skip (webp exists and up-to-date): " ++ env.srcName,
        { original_size := env.originalSize
          webp_size := m.size
          thumb_size := (env.thumbOut.map FileMeta.size).getD 0
          total_size := m.size + (env.thumbOut.map FileMeta.size).getD 0
          compression_pct :=
            ratioOf (m.size + (env.thumbOut.map FileMeta.size).getD 0)
              env.originalSize },
        { mainSave := none, thumbSave := none }) := by
  have hmu : mainUpToDate env = true := by
    simp [mainUpToDate, hm, hup]
  rw [process_single_file]
  simp [hsk, hmu, hm]

/-- Witness for C2's amended theorem at a concrete environment: main output
current (size 1234, mtime 9, source mtime 5), thumbnail missing. -/
theorem main_current_is_full_skip_witness :
    process_single_file cfgDefault envMainCurrentThumbMissing =
      Except.ok ("Skip (webp exists and up-to-date): photo.png",
        { original_size := 2000, webp_size := 1234, thumb_size := 0
          total_size := 1234, compression_pct := ratioOf 1234 2000 },
        { mainSave := none, thumbSave := none }) :=
  main_current_is_full_skip cfgDefault envMainCurrentThumbMissing
    { size := 1234, mtime := 9 } rfl rfl (by decide)

/-! ### C3 -/

/-- C3: on the static path (source not animated-GIF/WEBP), when the decoded
image carries an alpha channel (RGBA, LA, or P with a transparency entry)
and alpha preservation is enabled, the issued main encode is lossless with
no quality keyword — for every configured quality; otherwise the encode is
lossy at the configured quality. -/
theorem static_alpha_selects_lossless (cfg : Config) (env : Env)
    (img : DecodedImage)
    (hns : (cfg.skip_existing && mainUpToDate env) = false)
    (hdec : env.decoded = some img)
    (hstat : animatedPath img = false)
    (henc : env.mainEncodeErr = none) :
    ∃ msg stats tr, process_single_file cfg env = Except.ok (msg, stats, tr) ∧
      tr.mainSave = some (staticSaveCall cfg img) ∧
      ((modeHasAlpha img.mode img.transparency = true ∧ cfg.preserve_alpha = true) →
        (staticSaveCall cfg img).lossless = true ∧
        (staticSaveCall cfg img).quality = none) ∧
      ((modeHasAlpha img.mode img.transparency = false ∨ cfg.preserve_alpha = false) →
        (staticSaveCall cfg img).lossless = false ∧
        (staticSaveCall cfg img).quality = some cfg.quality) := by
  have hL : (modeHasAlpha img.mode img.transparency = true ∧ cfg.preserve_alpha = true) →
      (staticSaveCall cfg img).lossless = true ∧
      (staticSaveCall cfg img).quality = none := by
    rintro ⟨h1, h2⟩
    simp [staticSaveCall, h1, h2]
  have hN : (modeHasAlpha img.mode img.transparency = false ∨ cfg.preserve_alpha = false) →
      (staticSaveCall cfg img).lossless = false ∧
      (staticSaveCall cfg img).quality = some cfg.quality := by
    rintro (h | h) <;> simp [staticSaveCall, h]
  have hcm : convertMain cfg env img = Except.ok (staticSaveCall cfg img) := by
    simp [convertMain, hstat, henc]
  rw [process_single_file]
  simp only [hns, Bool.false_eq_true, if_false, hdec, hcm]
  split
  · exact ⟨_, _, _, rfl, rfl, hL, hN⟩
  · split
    · exact ⟨_, _, _, rfl, rfl, hL, hN⟩
    · exact ⟨_, _, _, rfl, rfl, hL, hN⟩

/-- A static RGBA image with EXIF metadata. -/
def imgAlphaPng : DecodedImage :=
  { format := "PNG", isAnimated := false, nFrames := 1, mode := Mode.RGBA
    transparency := false, exifBytes := some 7, iccProfile := none
    frameDurations := [], loopInfo := none }

/-- A fresh static alpha source going through the full pipeline. -/
def envAlpha : Env :=
  { srcName := "logo.png", srcStem := "logo", srcPath := "imgs/logo.png"
    originalSize := 800, srcMtime := 3
    mainOut := none, thumbOut := none
    decoded := some imgAlphaPng
    mainEncodeErr := none, writtenMainSize := 500
    thumbDecoded := { mode := Mode.RGBA, transparency := false }
    thumbErr := none, writtenThumbSize := 60 }

/-- Witness for C3 at a concrete RGBA source with `preserve_alpha = true`
and quality 100: the main encode issued is lossless without a quality
keyword. -/
theorem static_alpha_selects_lossless_witness :
    ∃ msg stats tr,
      process_single_file cfgDefault envAlpha = Except.ok (msg, stats, tr) ∧
      tr.mainSave = some (staticSaveCall cfgDefault imgAlphaPng) ∧
      (staticSaveCall cfgDefault imgAlphaPng).lossless = true ∧
      (staticSaveCall cfgDefault imgAlphaPng).quality = none := by
  obtain ⟨m, s, t, h1, h2, h3, -⟩ :=
    static_alpha_selects_lossless cfgDefault envAlpha imgAlphaPng rfl rfl rfl rfl
  exact ⟨m, s, t, h1, h2, h3 ⟨rfl, rfl⟩⟩

/-! ### C4 -/

/-- C4: for an animated source whose format is GIF or WEBP, the animated
encode path is selected: one animated save call is issued whose frame list
has exactly the input's frame count, whose per-frame duration equals the
frame's stored duration whenever one is present, and whose loop keyword is
the stored loop count (0 when absent); the static alpha/lossless rule is not
applied — the call is not lossless and carries the configured quality. -/
theorem animated_path_preserves_frames (cfg : Config) (env : Env)
    (img : DecodedImage)
    (hns : (cfg.skip_existing && mainUpToDate env) = false)
    (hdec : env.decoded = some img)
    (hanim : animatedPath img = true)
    (hn : 0 < img.nFrames)
    (henc : env.mainEncodeErr = none) :
    ∃ msg stats tr, process_single_file cfg env = Except.ok (msg, stats, tr) ∧
      tr.mainSave = some (animatedSaveCall cfg img) ∧
      (animatedSaveCall cfg img).animated = true ∧
      (animatedSaveCall cfg img).frames = img.nFrames ∧
      (animatedSaveCall cfg img).durations.length = img.nFrames ∧
      (∀ i, i < img.nFrames → ∀ d, img.frameDurations.getD i none = some d →
        (animatedSaveCall cfg img).durations.getD i 0 = d) ∧
      (animatedSaveCall cfg img).loop = img.loopInfo.getD 0 ∧
      (animatedSaveCall cfg img).lossless = false ∧
      (animatedSaveCall cfg img).quality = some cfg.quality := by
  have hlen : (animatedSaveCall cfg img).durations.length = img.nFrames := by
    simp [animatedSaveCall, collectedDurations]
  have hdur : ∀ i, i < img.nFrames → ∀ d,
      img.frameDurations.getD i none = some d →
      (animatedSaveCall cfg img).durations.getD i 0 = d := by
    intro i hi d hd
    have h1 : (animatedSaveCall cfg img).durations.getD i 0
        = (img.frameDurations.getD i none).getD 100 := by
      simp [animatedSaveCall, collectedDurations, List.getD_eq_getElem?_getD,
        List.getElem?_map, List.getElem?_range hi]
    rw [h1, hd]
    rfl
  have hcm : convertMain cfg env img = Except.ok (animatedSaveCall cfg img) := by
    simp [convertMain, hanim, henc, Nat.pos_iff_ne_zero.mp hn]
  rw [process_single_file]
  simp only [hns, Bool.false_eq_true, if_false, hdec, hcm]
  split
  · exact ⟨_, _, _, rfl, rfl, rfl, rfl, hlen, hdur, rfl, rfl, rfl⟩
  · split
    · exact ⟨_, _, _, rfl, rfl, rfl, rfl, hlen, hdur, rfl, rfl, rfl⟩
    · exact ⟨_, _, _, rfl, rfl, rfl, rfl, hlen, hdur, rfl, rfl, rfl⟩

/-- An animated GIF with three frames; the middle frame has no stored
duration (PIL defaults it to 100), loop count 2. -/
def imgGif : DecodedImage :=
  { format := "GIF", isAnimated := true, nFrames := 3, mode := Mode.P
    transparency := true, exifBytes := none, iccProfile := none
    frameDurations := [some 40, none, some 60], loopInfo := some 2 }

/-- A fresh animated GIF source going through the full pipeline. -/
def envGif : Env :=
  { srcName := "anim.gif", srcStem := "anim", srcPath := "imgs/anim.gif"
    originalSize := 4000, srcMtime := 7
    mainOut := none, thumbOut := none
    decoded := some imgGif
    mainEncodeErr := none, writtenMainSize := 2500
    thumbDecoded := { mode := Mode.P, transparency := true }
    thumbErr := none, writtenThumbSize := 90 }

/-- Witness for C4 at a concrete 3-frame GIF: the animated save call is
issued and its collected durations and loop are `[40, 100, 60]` and `2`. -/
theorem animated_path_preserves_frames_witness :
    (∃ msg stats tr,
      process_single_file cfgDefault envGif = Except.ok (msg, stats, tr) ∧
      tr.mainSave = some (animatedSaveCall cfgDefault imgGif)) ∧
    (animatedSaveCall cfgDefault imgGif).durations = [40, 100, 60] ∧
    (animatedSaveCall cfgDefault imgGif).frames = 3 ∧
    (animatedSaveCall cfgDefault imgGif).loop = 2 := by
  refine ⟨?_, by decide, by decide, by decide⟩
  obtain ⟨m, s, t, h1, h2, -⟩ :=
    animated_path_preserves_frames cfgDefault envGif imgGif rfl rfl rfl
      (by decide) rfl
  exact ⟨m, s, t, h1, h2⟩

/-! ### C5 -/

/-- C5: when the main conversion succeeds but the thumbnail step raises, the
outcome is still a success at the file level — `ok = true`, the message
embeds the thumbnail error, the reported thumbnail size is zero — and the
aggregator counts it as a success and does not append it to the failure
list. -/
theorem thumbnail_error_partial_success (cfg : Config) (env : Env)
    (img : DecodedImage) (mcall : SaveCall) (e : String) (st : AggState)
    (hns : (cfg.skip_existing && mainUpToDate env) = false)
    (hdec : env.decoded = some img)
    (hcm : convertMain cfg env img = Except.ok mcall)
    (hts : (cfg.skip_existing && thumbUpToDate env) = false)
    (hte : env.thumbErr = some e) :
    process_file_task cfg env =
      { filename := env.srcName, ok := true
        message := "Converted: " ++ env.srcName ++ " -> " ++ env.srcStem
            ++ ".webp (thumbnail failed: " ++ e ++ ")"
        stats := some
          { original_size := env.originalSize
            webp_size := env.writtenMainSize
            thumb_size := 0
            total_size := env.writtenMainSize
            compression_pct := ratioOf env.writtenMainSize env.originalSize } } ∧
    (foldOutcome st (process_file_task cfg env)).success_count
      = st.success_count + 1 ∧
    (foldOutcome st (process_file_task cfg env)).failed = st.failed := by
  have hp : process_single_file cfg env =
      Except.ok ("Converted: " ++ env.srcName ++ " -> " ++ env.srcStem
          ++ ".webp (thumbnail failed: " ++ e ++ ")",
        { original_size := env.originalSize
          webp_size := env.writtenMainSize
          thumb_size := 0
          total_size := env.writtenMainSize
          compression_pct := ratioOf env.writtenMainSize env.originalSize },
        { mainSave := some mcall, thumbSave := none }) := by
    rw [process_single_file]
    simp only [hns, Bool.false_eq_true, if_false, hdec, hcm, hts, hte]
  have ht : process_file_task cfg env =
      { filename := env.srcName, ok := true
        message := "Converted: " ++ env.srcName ++ " -> " ++ env.srcStem
            ++ ".webp (thumbnail failed: " ++ e ++ ")"
        stats := some
          { original_size := env.originalSize
            webp_size := env.writtenMainSize
            thumb_size := 0
            total_size := env.writtenMainSize
            compression_pct := ratioOf env.writtenMainSize env.originalSize } } := by
    rw [process_file_task, hp]
  refine ⟨ht, ?_, ?_⟩ <;> rw [ht] <;> simp [foldOutcome]

/-- A source whose main conversion succeeds but whose thumbnail step raises
`cannot write mode CMYK as WEBP`. -/
def envThumbFails : Env :=
  { srcName := "page.tiff", srcStem := "page", srcPath := "imgs/page.tiff"
    originalSize := 6000, srcMtime := 4
    mainOut := none, thumbOut := none
    decoded := some imgPlain
    mainEncodeErr := none, writtenMainSize := 1500
    thumbDecoded := { mode := Mode.RGB, transparency := false }
    thumbErr := some "cannot write mode CMYK as WEBP"
    writtenThumbSize := 0 }

/-- Witness for C5 at a concrete environment: thumbnail step raises, the
outcome is still `ok = true` with thumbnail size 0 and the aggregator counts
it as a success from the initial state. -/
theorem thumbnail_error_partial_success_witness :
    (process_file_task cfgDefault envThumbFails).ok = true ∧
    (foldOutcome aggInit (process_file_task cfgDefault envThumbFails)).success_count
      = 1 ∧
    (foldOutcome aggInit (process_file_task cfgDefault envThumbFails)).failed
      = [] := by
  obtain ⟨h1, h2, h3⟩ :=
    thumbnail_error_partial_success cfgDefault envThumbFails imgPlain
      (staticSaveCall cfgDefault imgPlain) "cannot write mode CMYK as WEBP"
      aggInit rfl rfl rfl rfl rfl
  refine ⟨?_, ?_, ?_⟩
  · rw [h1]
  · rw [h2]
    rfl
  · rw [h3]
    rfl

/-! ### C6 -/

theorem drive_outcome_count (st : AggState) (rs : List TaskResult) :
    (drive st rs).success_count + (drive st rs).failed.length
      = st.success_count + st.failed.length + rs.length := by
  induction rs generalizing st with
  | nil => simp [drive]
  | cons r rs ih =>
      have h1 : drive st (r :: rs) = drive (driveStep st r) rs := rfl
      rw [h1, ih]
      rcases r with o | ⟨n, e⟩
      · by_cases h : o.ok
        · rcases hs : o.stats with _ | s <;>
            simp [driveStep, foldOutcome, h, hs] <;> omega
        · simp [driveStep, foldOutcome, h]
          omega
      · simp [driveStep]
        omega

/-- C6: every completed future contributes exactly one record to the run —
after draining any result stream, success count plus failure count equals
the initial counts plus the number of submitted tasks; a per-file error
(such as an unreadable source) is converted by `process_file_task` into a
failure outcome carrying the file name and error description instead of
aborting; and an abnormal worker termination is recorded by the driver as a
failure entry carrying the file name and the error description. -/
theorem per_file_errors_isolated (st : AggState) (rs : List TaskResult)
    (cfg : Config) (env : Env) (n e : String)
    (hns : (cfg.skip_existing && mainUpToDate env) = false)
    (hdec : env.decoded = none) :
    ((drive st rs).success_count + (drive st rs).failed.length
        = st.success_count + st.failed.length + rs.length) ∧
    process_file_task cfg env =
      { filename := env.srcName, ok := false
        message := "Skipped (not an image or corrupted): " ++ env.srcPath
        stats := none } ∧
    (driveStep st (TaskResult.crash n e)).failed = st.failed ++ [(n, e)] ∧
    (driveStep st (TaskResult.crash n e)).success_count = st.success_count := by
  refine ⟨drive_outcome_count st rs, ?_, rfl, rfl⟩
  rw [process_file_task, process_single_file]
  simp only [hns, Bool.false_eq_true, if_false, hdec]

/-- Witness for C6: a two-task stream (one success, one crash) yields
exactly two records, and the unreadable `envCorrupt` source becomes a
failure outcome with its name and error text. -/
theorem per_file_errors_isolated_witness :
    ((drive aggInit [TaskResult.done sampleOutcome,
        TaskResult.crash "z.png" "process terminated abruptly"]).success_count
      + (drive aggInit [TaskResult.done sampleOutcome,
        TaskResult.crash "z.png" "process terminated abruptly"]).failed.length
      = 2) ∧
    process_file_task cfgDefault envCorrupt =
      { filename := "broken.gif", ok := false
        message := "Skipped (not an image or corrupted): imgs/broken.gif"
        stats := none } := by
  obtain ⟨h1, h2, -, -⟩ :=
    per_file_errors_isolated aggInit
      [TaskResult.done sampleOutcome,
        TaskResult.crash "z.png" "process terminated abruptly"]
      cfgDefault envCorrupt "z.png" "process terminated abruptly" rfl rfl
  refine ⟨?_, ?_⟩
  · rw [h1]
    rfl
  · rw [h2]
    rfl

/-! ### C8 -/

/-- C8: every stats record returned by a completed `process_single_file`
run satisfies `total_size = webp_size + thumb_size` and
`compression_ratio = (webp_size + thumb_size) / original_size * 100`,
with the ratio 0 when the original size is 0. -/
theorem stats_ratio_formula (cfg : Config) (env : Env) (msg : String)
    (stats : Stats) (tr : Trace)
    (hok : process_single_file cfg env = Except.ok (msg, stats, tr)) :
    stats.total_size = stats.webp_size + stats.thumb_size ∧
    stats.compression_pct =
      if 0 < stats.original_size then
        (((stats.webp_size : ℚ) + (stats.thumb_size : ℚ))
            / (stats.original_size : ℚ)) * 100
      else 0 := by
  rw [process_single_file] at hok
  split at hok
  · simp only [Except.ok.injEq, Prod.mk.injEq] at hok
    obtain ⟨-, h2, -⟩ := hok
    subst h2
    exact ⟨rfl, by simp [ratioOf, Nat.cast_add]⟩
  · split at hok
    · simp at hok
    · split at hok
      · simp at hok
      · split at hok
        · simp only [Except.ok.injEq, Prod.mk.injEq] at hok
          obtain ⟨-, h2, -⟩ := hok
          subst h2
          exact ⟨rfl, by simp [ratioOf, Nat.cast_add]⟩
        · split at hok
          · simp only [Except.ok.injEq, Prod.mk.injEq] at hok
            obtain ⟨-, h2, -⟩ := hok
            subst h2
            exact ⟨by simp, by simp [ratioOf, Nat.cast_add]⟩
          · simp only [Except.ok.injEq, Prod.mk.injEq] at hok
            obtain ⟨-, h2, -⟩ := hok
            subst h2
            exact ⟨rfl, by simp [ratioOf, Nat.cast_add]⟩

/-- Witness for C8: a file with original 1000, main output 300 and
thumbnail 50 reports a compression ratio of 35%. -/
theorem stats_ratio_formula_witness :
    ∃ msg stats tr,
      process_single_file cfgDefault envFull = Except.ok (msg, stats, tr) ∧
      stats.original_size = 1000 ∧ stats.webp_size = 300 ∧
      stats.thumb_size = 50 ∧ stats.compression_pct = 35 := by
  refine ⟨_, _, _, rfl, rfl, rfl, rfl, ?_⟩
  have h := (stats_ratio_formula cfgDefault envFull _ _ _ rfl).2
  rw [h]
  norm_num [envFull]

/-! ### C9 -/

/-- C9: the run report computes the overall compression ratio as total
output size over total original size times 100 (0 when the total original
size is 0) and the space saved as total original minus total output, an
integer that may be negative; for original total 10000 and output total
4000 the space saved is 6000, and an output total exceeding the original
total yields a negative space saved. -/
theorem run_report_formulas (st : AggState) :
    (finalReport st).total_output_size
      = st.total_webp_size + st.total_thumb_size ∧
    (finalReport st).overall_compression_pct =
      (if 0 < st.total_original_size then
        (((st.total_webp_size + st.total_thumb_size : Nat) : ℚ)
            / (st.total_original_size : ℚ)) * 100
      else 0) ∧
    (finalReport st).space_saved
      = (st.total_original_size : Int)
        - ((st.total_webp_size + st.total_thumb_size : Nat) : Int) ∧
    (finalReport { success_count := 3, failed := []
                   total_original_size := 10000
                   total_webp_size := 4000, total_thumb_size := 0 }).space_saved
      = 6000 ∧
    (finalReport { success_count := 1, failed := []
                   total_original_size := 100
                   total_webp_size := 150, total_thumb_size := 50 }).space_saved
      = -100 :=
  ⟨rfl, rfl, rfl, by decide, by decide⟩

/-! ### C10 -/

/-- C10: every thumbnail encode call carries no EXIF bytes and no ICC
profile, whatever the `preserve_exif` / `preserve_icc` flags say; and when
the thumbnail takes the lossless path, no quality keyword is passed (the
configured quality is ignored), while the lossy path uses the configured
quality. -/
theorem thumbnail_save_no_metadata (cfg : Config) (env : Env) (msg : String)
    (stats : Stats) (tr : Trace) (c : SaveCall)
    (hok : process_single_file cfg env = Except.ok (msg, stats, tr))
    (hc : tr.thumbSave = some c) :
    c.exif = none ∧ c.icc = none ∧
    (c.lossless = true → c.quality = none) ∧
    (c.lossless = false → c.quality = some cfg.quality) := by
  rw [process_single_file] at hok
  split at hok
  · simp only [Except.ok.injEq, Prod.mk.injEq] at hok
    obtain ⟨-, -, h3⟩ := hok
    subst h3
    simp at hc
  · split at hok
    · simp at hok
    · split at hok
      · simp at hok
      · split at hok
        · simp only [Except.ok.injEq, Prod.mk.injEq] at hok
          obtain ⟨-, -, h3⟩ := hok
          subst h3
          simp at hc
        · split at hok
          · simp only [Except.ok.injEq, Prod.mk.injEq] at hok
            obtain ⟨-, -, h3⟩ := hok
            subst h3
            simp at hc
          · simp only [Except.ok.injEq, Prod.mk.injEq] at hok
            obtain ⟨-, -, h3⟩ := hok
            subst h3
            simp only [Option.some.injEq] at hc
            subst hc
            by_cases h : (modeHasAlpha env.thumbDecoded.mode
                env.thumbDecoded.transparency && cfg.preserve_alpha) = true
            · simp [thumbSaveCall, h]
            · simp [thumbSaveCall, h]

/-- Witness for C10 at the concrete `envFull` run (RGB thumbnail, lossy
path): the thumbnail save call carries no EXIF and no ICC even though both
preservation flags are enabled. -/
theorem thumbnail_save_no_metadata_witness :
    (thumbSaveCall cfgDefault envFull.thumbDecoded).exif = none ∧
    (thumbSaveCall cfgDefault envFull.thumbDecoded).icc = none ∧
    cfgDefault.preserve_exif = true ∧ cfgDefault.preserve_icc = true := by
  have h := thumbnail_save_no_metadata cfgDefault envFull _ _ _
    (thumbSaveCall cfgDefault envFull.thumbDecoded) rfl rfl
  exact ⟨h.1, h.2.1, rfl, rfl⟩
